import Mathlib

/-!
Verification of the VTM `vectorwave` tracing / context-propagation core.

This file gives a shallow embedding of the Python sources

  * `src/vectorwave/core/decorator.py`   (the `vectorize` decorator),
  * `src/vectorwave/monitoring/tracer.py` (`trace_root`, `trace_span`,
    `TraceCollector`, the `ContextVar` scoped context cell),
  * `src/vectorwave/batch/batch.py`      (`WeaviateBatchManager.add_object`),
  * `src/vectorwave/models/db_config.py` (the resolved `WeaviateSettings`),

and proves / refutes the specification claims about them.

Modelling conventions:
  * Python `dict`s are association lists (`Kw`), with `dlookup`, `setKey`
    (item assignment), `updateMap` (`dict.update`), `popKey` (`dict.pop`)
    mirroring the CPython operations used in the sources.
  * Python values are the inductive `Val`; non-primitive values carry the
    string produced by `str(...)`.
  * A Python callable is a `PyFun`: it takes positional arguments, keyword
    arguments and the interpreter state (the `ContextVar` cell plus the
    record of everything handed to the sink) and returns either a value or
    a raised exception, together with the new state.
  * Environmental nondeterminism (`uuid4`, `time.perf_counter`,
    `datetime.now`) is passed in explicitly (`freshId`, `SpanRt`).
-/

/-- Model of a Python run-time value. Non-primitive objects (anything that is
not `str`/`int`/`float`/`bool`/`list`/`dict`/`None`) are represented by the
string `str(...)` would produce for them. -/
inductive Val where
  | vstr (s : String)
  | vint (n : Int)
  | vbool (b : Bool)
  | vnone
  | vother (strOf : String)
deriving DecidableEq, Repr

/-- Model of a Python exception: its class name and message. -/
structure Exc where
  name : String
  msg : String
deriving DecidableEq, Repr

/-- A Python `dict` with string keys, as an insertion-ordered association
list (CPython dicts preserve insertion order and have unique keys). -/
abbrev Kw := List (String × Val)

/-- Dictionary lookup (`d[k]` / `k in d`): first matching entry. -/
def dlookup : Kw → String → Option Val
  | [], _ => none
  | (k, v) :: rest, key => if k = key then some v else dlookup rest key

/-- Dictionary item assignment `d[k] = v`: replaces the value in place if the
key is present, otherwise appends the new entry (CPython semantics). -/
def setKey : Kw → String → Val → Kw
  | [], k, v => [(k, v)]
  | (k1, v1) :: rest, k, v =>
      if k1 = k then (k, v) :: rest else (k1, v1) :: setKey rest k v

/-- The update loop of `d.update(other)`: each entry of `other` is assigned
into `d` in order. -/
def updateMap (m other : Kw) : Kw :=
  other.foldl (fun acc p => setKey acc p.1 p.2) m

/-- Removal `d.pop(k, None)` (the resulting dictionary: the entry with the
given key, if any, is removed). -/
def popKey : Kw → String → Kw
  | [], _ => []
  | (k1, v1) :: rest, k =>
      if k1 = k then popKey rest k else (k1, v1) :: popKey rest k

theorem dlookup_append (a b : Kw) (key : String) :
    dlookup (a ++ b) key =
      match dlookup a key with
      | some v => some v
      | none => dlookup b key := by
  induction a with
  | nil => rfl
  | cons p rest ih =>
    obtain ⟨k, v⟩ := p
    by_cases h : k = key <;> simp [dlookup, h, ih]

theorem dlookup_setKey (m : Kw) (k : String) (v : Val) (key : String) :
    dlookup (setKey m k v) key = if key = k then some v else dlookup m key := by
  induction m with
  | nil =>
    by_cases hk : key = k
    · simp [setKey, dlookup, hk]
    · simp [setKey, dlookup, hk, Ne.symm hk]
  | cons p rest ih =>
    obtain ⟨k1, v1⟩ := p
    by_cases h1 : k1 = k
    · subst h1
      by_cases hk : key = k1
      · simp [setKey, dlookup, hk]
      · simp [setKey, dlookup, hk, Ne.symm hk]
    · by_cases h1k : k1 = key
      · subst h1k
        simp [setKey, dlookup, h1]
      · simp [setKey, dlookup, h1, h1k, ih]

theorem mem_keys_of_dlookup_eq_some {m : Kw} {key : String} {v : Val}
    (h : dlookup m key = some v) : key ∈ m.map Prod.fst := by
  induction m with
  | nil => simp [dlookup] at h
  | cons p rest ih =>
    obtain ⟨k1, v1⟩ := p
    by_cases h1 : k1 = key
    · simp [h1]
    · simp only [dlookup, if_neg h1] at h
      simp [ih h]

theorem dlookup_eq_none_of_not_mem {m : Kw} {key : String}
    (h : key ∉ m.map Prod.fst) : dlookup m key = none := by
  cases hd : dlookup m key with
  | none => rfl
  | some v => exact absurd (mem_keys_of_dlookup_eq_some hd) h

theorem dlookup_updateMap (m o : Kw) (key : String)
    (ho : (o.map Prod.fst).Nodup) :
    dlookup (updateMap m o) key =
      match dlookup o key with
      | some v => some v
      | none => dlookup m key := by
  induction o generalizing m with
  | nil => rfl
  | cons p rest ih =>
    obtain ⟨k1, v1⟩ := p
    simp only [List.map_cons, List.nodup_cons] at ho
    have hstep : updateMap m ((k1, v1) :: rest) = updateMap (setKey m k1 v1) rest := rfl
    rw [hstep, ih _ ho.2]
    by_cases hk : k1 = key
    · subst hk
      have hnone : dlookup rest k1 = none := dlookup_eq_none_of_not_mem ho.1
      simp [dlookup, hnone, dlookup_setKey]
    · cases hr : dlookup rest key with
      | some w => simp [dlookup, hk, hr]
      | none => simp [dlookup, hk, hr, dlookup_setKey, Ne.symm hk]

theorem dlookup_updateMap_of_none (m o : Kw) (key : String)
    (ho : dlookup o key = none) :
    dlookup (updateMap m o) key = dlookup m key := by
  induction o generalizing m with
  | nil => rfl
  | cons p rest ih =>
    obtain ⟨k1, v1⟩ := p
    simp only [dlookup] at ho
    by_cases hk : k1 = key
    · simp [hk] at ho
    · rw [if_neg hk] at ho
      have hstep : updateMap m ((k1, v1) :: rest) = updateMap (setKey m k1 v1) rest := rfl
      rw [hstep, ih _ ho, dlookup_setKey, if_neg (Ne.symm hk)]

theorem dlookup_popKey (m : Kw) (k key : String) :
    dlookup (popKey m k) key = if key = k then none else dlookup m key := by
  induction m with
  | nil => simp [popKey, dlookup]
  | cons p rest ih =>
    obtain ⟨k1, v1⟩ := p
    by_cases h1 : k1 = k
    · subst h1
      by_cases hk : key = k1
      · subst hk
        simp [popKey, ih]
      · simp [popKey, ih, hk, dlookup, Ne.symm hk]
    · by_cases h1k : k1 = key
      · subst h1k
        simp [popKey, dlookup, h1, Ne.symm h1]
      · simp [popKey, dlookup, h1, h1k, ih]

theorem dlookup_foldl_popKey (ks : List String) (m : Kw) (key : String) :
    dlookup (ks.foldl popKey m) key =
      if key ∈ ks then none else dlookup m key := by
  induction ks generalizing m with
  | nil => simp
  | cons k rest ih =>
    rw [List.foldl_cons, ih]
    by_cases hk : key = k
    · subst hk
      simp [dlookup_popKey]
    · by_cases hr : key ∈ rest <;> simp [hr, hk, dlookup_popKey]

theorem mem_foldl_appendNew (l : List String) (init : List String) (key : String) :
    key ∈ l.foldl (fun acc k => if k ∈ acc then acc else acc ++ [k]) init ↔
      key ∈ init ∨ key ∈ l := by
  induction l generalizing init with
  | nil => simp
  | cons k rest ih =>
    rw [List.foldl_cons, ih]
    by_cases hk : k ∈ init
    · simp only [if_pos hk]
      constructor
      · rintro (h | h)
        · exact Or.inl h
        · simp [h]
      · rintro (h | h)
        · exact Or.inl h
        · rcases List.mem_cons.mp h with h | h
          · subst h; exact Or.inl hk
          · exact Or.inr h
    · simp only [if_neg hk, List.mem_append, List.mem_singleton, List.mem_cons]
      tauto

/-- Primitive check of `tracer.py` line 83:
`isinstance(value, (str, int, float, bool, list, dict, type(None)))`. -/
def isPrimitive : Val → Bool
  | .vother _ => false
  | _ => true

/-- String conversion `str(value)` for a non-primitive value. -/
def pyStr : Val → Val
  | .vother s => .vstr s
  | .vstr s => .vstr s
  | v => v

/-- Normalization of `tracer.py` lines 83-84: non-primitive values are
converted to their string representation before inclusion. -/
def pyNormalize (v : Val) : Val :=
  if isPrimitive v then v else pyStr v

/-- The capture loop of `tracer.py` lines 76-85: for each declared attribute
name present in the call's keyword arguments, copy its (normalized) value
into `captured_attributes`. -/
def captureAttributes (attrNames : List String) (kwargs : Kw) : Kw :=
  attrNames.foldl
    (fun acc attrName =>
      match dlookup kwargs attrName with
      | some v => setKey acc attrName (pyNormalize v)
      | none => acc)
    []

/-- Log signals emitted by the embedded code (warnings / errors of
`decorator.py`, `batch.py`). -/
inductive LogEntry where
  | warnNoPropertiesFile (functionName : String) (tagKeys : List String)
  | warnUndefinedTag (functionName : String) (key : String)
  | errorSetup (functionName : String) (e : Exc)
  | warnBatchNotInitialized
  | errorAddObject (collection : String) (e : Exc)
deriving DecidableEq, Repr

/-- The resolved `WeaviateSettings` value object (`db_config.py`):
`custom_properties` is modelled by its key set (`None` when no
`.weaviate_properties` file was loaded; `some []` models an empty mapping,
which is falsy in Python exactly like `None`). -/
structure Settings where
  custom_properties : Option (List String)
  global_custom_values : Option Kw
  COLLECTION_NAME : String
  EXECUTION_COLLECTION_NAME : String
deriving DecidableEq, Repr

/-- Default settings values from `db_config.py` (no custom-properties file). -/
def defaultSettings : Settings :=
  { custom_properties := none
    global_custom_values := none
    COLLECTION_NAME := "VectorWaveFunctions"
    EXECUTION_COLLECTION_NAME := "VectorWaveExecutions" }

/-- The `TraceCollector` of `tracer.py` lines 17-21: the trace identifier plus
the resolved settings captured at construction time (the batch-manager
reference is part of the interpreter state here). -/
structure TraceCollector where
  trace_id : Val
  settings : Settings
deriving DecidableEq, Repr

/-- The interpreter state visible to the tracing core: the scoped context
cell (`current_tracer_var : ContextVar[Optional[TraceCollector]]`) and the
list of records handed to the sink so far. -/
structure PyState where
  cell : Option TraceCollector
  emitted : List (String × Kw)
deriving DecidableEq, Repr

/-- A Python callable: positional arguments, keyword arguments and state in;
either a returned value or a raised exception, plus the new state, out. -/
abbrev PyFun := List Val → Kw → PyState → Except Exc Val × PyState

/-- The environmental inputs consumed by one `trace_span` invocation:
`str(uuid4())` for the span id, `datetime.now(timezone.utc).isoformat()`,
and the measured `(time.perf_counter() - start_time) * 1000`. -/
structure SpanRt where
  span_id : String
  timestamp_utc : String
  duration_ms : Int
deriving DecidableEq, Repr

/-- Model of `traceback.format_exc()` for a raised exception. -/
def formatExc (e : Exc) : String :=
  "Traceback (most recent call last): " ++ e.name ++ ": " ++ e.msg

/-- The span-record dictionary literal of `tracer.py` lines 98-106, in its
source order. -/
def mkSpanFields (traceId : Val) (rt : SpanRt) (functionName status : String)
    (errorMessage : Val) : Kw :=
  [("trace_id", traceId),
   ("span_id", .vstr rt.span_id),
   ("function_name", .vstr functionName),
   ("timestamp_utc", .vstr rt.timestamp_utc),
   ("duration_ms", .vint rt.duration_ms),
   ("status", .vstr status),
   ("error_message", errorMessage)]

/-- Overlay of `tracer.py` lines 108-110: `span_properties.update(
tracer.settings.global_custom_values)` if that mapping is present (a global
value overrides a colliding span field); a falsy mapping is skipped. -/
def applyGlobalValues (spanFields : Kw) (globalValues : Option Kw) : Kw :=
  match globalValues with
  | some g => updateMap spanFields g
  | none => spanFields

/-- Merge of `tracer.py` lines 108-114: start from the span fields, apply the
global custom values first, then apply the captured attributes (overriding
global values and span fields). -/
def buildSpanRecord (spanFields : Kw) (globalValues : Option Kw)
    (captured : Kw) : Kw :=
  updateMap (applyGlobalValues spanFields globalValues) captured

/-- The `wrapper` of `trace_span` (`tracer.py` lines 64-126). `submit` stands
for the call `tracer.batch.add_object(collection=..., properties=...)`; its
outcome is guarded by the `try/except` of lines 116-122, so it never alters
the business result. -/
def traceSpanWrapper
    (submit : String → Kw → PyState → Except Exc Unit × PyState)
    (attributesToCapture : List String) (rt : SpanRt) (functionName : String)
    (func : PyFun) : PyFun :=
  fun args kwargs st =>
    match st.cell with
    | none => func args kwargs st
    | some tracer =>
      let captured := captureAttributes attributesToCapture kwargs
      let invoked := func args kwargs st
      let result := invoked.1
      let status := match result with
        | .ok _ => "SUCCESS"
        | .error _ => "ERROR"
      let errorMessage : Val := match result with
        | .ok _ => .vnone
        | .error e => .vstr (formatExc e)
      let record := buildSpanRecord
        (mkSpanFields tracer.trace_id rt functionName status errorMessage)
        tracer.settings.global_custom_values captured
      let submitted := submit tracer.settings.EXECUTION_COLLECTION_NAME record invoked.2
      (result, submitted.2)

/-- Construction of `TraceCollector(trace_id=kwargs.pop('trace_id',
str(uuid4())))` in `tracer.py` lines 39-40: the popped caller value if
present, otherwise the freshly generated identifier. -/
def newTraceCollector (settings : Settings) (freshId : String) (kwargs : Kw) :
    TraceCollector :=
  { trace_id := (dlookup kwargs "trace_id").getD (.vstr freshId)
    settings := settings }

/-- The `wrapper` of `trace_root` (`tracer.py` lines 35-47). If the context
cell already holds a tracer the call is a pure pass-through; otherwise a new
`TraceCollector` is stored, the wrapped function runs without the `trace_id`
keyword, and the `finally` block resets the cell to its prior value on both
the return and the raise path. -/
def traceRootWrapper (settings : Settings) (freshId : String)
    (func : PyFun) : PyFun :=
  fun args kwargs st =>
    match st.cell with
    | some _ => func args kwargs st
    | none =>
      let tracer := newTraceCollector settings freshId kwargs
      let kwargs1 := popKey kwargs "trace_id"
      let invoked := func args kwargs1 { st with cell := some tracer }
      (invoked.1, { invoked.2 with cell := st.cell })

/-- The `keys_to_remove` list of `decorator.py` lines 87-92: the keys of
`valid_execution_tags`, then `'function_uuid'`, then every key of the
original `execution_tags` declaration not already present. -/
def keysToRemoveList (validExecutionTags executionTags : Kw) : List String :=
  (executionTags.map Prod.fst).foldl
    (fun acc key => if key ∈ acc then acc else acc ++ [key])
    (validExecutionTags.map Prod.fst ++ ["function_uuid"])

/-- The pop loop of `decorator.py` lines 94-95: every key in `keys_to_remove`
is removed (`original_kwargs.pop(key, None)`) from a copy of the received
keyword arguments. -/
def stripInstrumentationKeys (validExecutionTags executionTags : Kw)
    (kwargs : Kw) : Kw :=
  (keysToRemoveList validExecutionTags executionTags).foldl popKey kwargs

/-- The `inner_wrapper` body of `decorator.py` lines 83-97 (below the
tracing decorators): strip all instrumentation keys, then invoke the
business function with the surviving keyword arguments. -/
def innerWrapper (validExecutionTags executionTags : Kw) (func : PyFun) :
    PyFun :=
  fun args kwargs st =>
    func args (stripInstrumentationKeys validExecutionTags executionTags kwargs) st

/-- The keyword merge of `outer_wrapper` (`decorator.py` lines 103-105):
`full_kwargs = kwargs.copy()`, `full_kwargs.update(valid_execution_tags)`,
`full_kwargs['function_uuid'] = func_uuid`. -/
def mergedKwargs (validExecutionTags : Kw) (funcUuid : Val) (kwargs : Kw) :
    Kw :=
  setKey (updateMap kwargs validExecutionTags) "function_uuid" funcUuid

/-- The `outer_wrapper` of `decorator.py` lines 100-109: build the full
keyword set and pass it to the wrapped pipeline. -/
def outerWrapper (validExecutionTags : Kw) (funcUuid : Val) (inner : PyFun) :
    PyFun :=
  fun args kwargs st =>
    inner args (mergedKwargs validExecutionTags funcUuid kwargs) st

/-- The capture whitelist hardcoded at `decorator.py` line 81:
`attributes_to_capture=['function_uuid', 'team', 'priority', 'run_id']`. -/
def vectorizeCaptureList : List String :=
  ["function_uuid", "team", "priority", "run_id"]

/-- One call through the whole instrumented pipeline produced by `vectorize`:
`outer_wrapper` into `@trace_root()` into `@trace_span(...)` into
`inner_wrapper` into the business function (`decorator.py` lines 80-111). -/
def vectorizedCall
    (submit : String → Kw → PyState → Except Exc Unit × PyState)
    (settings : Settings) (rt : SpanRt) (freshId : String)
    (validExecutionTags executionTags : Kw) (funcUuid : Val)
    (functionName : String) (func : PyFun) : PyFun :=
  outerWrapper validExecutionTags funcUuid
    (traceRootWrapper settings freshId
      (traceSpanWrapper submit vectorizeCaptureList rt functionName
        (innerWrapper validExecutionTags executionTags func)))

/-- The keyword arguments the pipeline passes on from `trace_root` to
`trace_span`: unchanged on a nested call, with `trace_id` popped on an
outermost call. -/
def rootPassedKwargs (cell : Option TraceCollector) (kwargs : Kw) : Kw :=
  match cell with
  | some _ => kwargs
  | none => popKey kwargs "trace_id"

/-- The keyword arguments the business function receives from one
`vectorizedCall`: the merged keyword set, minus `trace_id` when the call is
outermost, minus every instrumentation key. -/
def vectorizedBusinessKwargs (validExecutionTags executionTags : Kw)
    (funcUuid : Val) (cell : Option TraceCollector) (kwargs : Kw) : Kw :=
  stripInstrumentationKeys validExecutionTags executionTags
    (rootPassedKwargs cell (mergedKwargs validExecutionTags funcUuid kwargs))

/-- The state at which the business function is invoked inside one
`vectorizedCall`: unchanged when a tracer is already current, otherwise the
state with the newly created tracer stored in the cell. -/
def vectorizedBusinessState (settings : Settings) (freshId : String)
    (validExecutionTags : Kw) (funcUuid : Val) (kwargs : Kw) (st : PyState) :
    PyState :=
  match st.cell with
  | some _ => st
  | none =>
    { st with
      cell := some (newTraceCollector settings freshId
        (mergedKwargs validExecutionTags funcUuid kwargs)) }

/-- The captured attributes of the span emitted by one `vectorizedCall`:
the hardcoded whitelist applied to the keyword set `trace_span` receives. -/
def vectorizedCapturedAttributes (validExecutionTags : Kw) (funcUuid : Val)
    (cell : Option TraceCollector) (kwargs : Kw) : Kw :=
  captureAttributes vectorizeCaptureList
    (rootPassedKwargs cell (mergedKwargs validExecutionTags funcUuid kwargs))

/-- Definition-time tag validation of `decorator.py` lines 49-66. Returns
`valid_execution_tags` together with the warning signals, mirroring: no
warning at all when no `execution_tags` were declared; a single warning
listing every declared key when `settings.custom_properties` is falsy (no
`.weaviate_properties` file loaded, or an empty mapping); otherwise one
warning per key missing from `allowed_keys`. -/
def computeValidTags (functionName : String) (executionTags : Kw)
    (customProperties : Option (List String)) : Kw × List LogEntry :=
  if executionTags.isEmpty then ([], [])
  else if (customProperties.getD []).isEmpty then
    ([], [.warnNoPropertiesFile functionName (executionTags.map Prod.fst)])
  else
    executionTags.foldl
      (fun acc p =>
        if p.1 ∈ customProperties.getD [] then (acc.1 ++ [p], acc.2)
        else (acc.1, acc.2 ++ [.warnUndefinedTag functionName p.1]))
      ([], [])

/-- Outcome of evaluating `decorator(func)` in `decorator.py` lines 26-111. -/
structure VectorizeResult where
  wrapperReturned : Bool
  raisedToCaller : Option Exc
  valid_execution_tags : Kw
  logs : List LogEntry
deriving DecidableEq, Repr

/-- The definition-time setup of `decorator.py` lines 28-75. `setupFailure`
models an exception raised inside the `try` block before the tag-validation
loop runs (e.g. `inspect.getsource`, `get_batch_manager` or
`get_weaviate_settings` failing — every raising operation of that block
precedes the loop, since `batch.add_object` catches internally): the
`except` clause at lines 74-75 logs the error and execution falls through
to return `outer_wrapper`, with `valid_execution_tags` left empty. -/
def vectorizeSetup (setupFailure : Option Exc) (functionName : String)
    (executionTags : Kw) (customProperties : Option (List String)) :
    VectorizeResult :=
  match setupFailure with
  | some e =>
    { wrapperReturned := true
      raisedToCaller := none
      valid_execution_tags := []
      logs := [.errorSetup functionName e] }
  | none =>
    let validated := computeValidTags functionName executionTags customProperties
    { wrapperReturned := true
      raisedToCaller := none
      valid_execution_tags := validated.1
      logs := validated.2 }

/-- The `WeaviateBatchManager` of `batch.py`: the `_initialized` flag, whether
`self.client` is set, and the outcome of
`self.client.collections.get(...).data.insert(...)` on each input. -/
structure BatchManager where
  initialized : Bool
  clientPresent : Bool
  insertOutcome : String → Kw → Option String → Except Exc Unit

/-- `WeaviateBatchManager.add_object` (`batch.py` lines 45-60): skip with a
warning when uninitialized, otherwise try the insert and log any failure;
in every case the method returns normally. -/
def addObject (m : BatchManager) (collection : String) (properties : Kw)
    (uuid : Option String) : Except Exc Unit × List LogEntry :=
  if !m.initialized || !m.clientPresent then
    (.ok (), [.warnBatchNotInitialized])
  else
    match m.insertOutcome collection properties uuid with
    | .ok _ => (.ok (), [])
    | .error e => (.ok (), [.errorAddObject collection e])

/-- A sink that records every submitted span into the state and never
fails (used to observe the records a pipeline emits). -/
def recordingSubmit (collection : String) (record : Kw) (st : PyState) :
    Except Exc Unit × PyState :=
  (.ok (), { st with emitted := st.emitted ++ [(collection, record)] })

theorem captureAttributes_fold_lookup (attrNames : List String) (kwargs : Kw)
    (key : String) :
    ∀ acc : Kw,
      dlookup
        (attrNames.foldl
          (fun acc attrName =>
            match dlookup kwargs attrName with
            | some v => setKey acc attrName (pyNormalize v)
            | none => acc)
          acc) key =
      if key ∈ attrNames then
        match dlookup kwargs key with
        | some v => some (pyNormalize v)
        | none => dlookup acc key
      else dlookup acc key := by
  induction attrNames with
  | nil => intro acc; simp
  | cons a rest ih =>
    intro acc
    rw [List.foldl_cons, ih]
    by_cases hk : key = a
    · subst hk
      cases hkw : dlookup kwargs key with
      | some v =>
        by_cases hr : key ∈ rest <;> simp [hr, hkw, dlookup_setKey]
      | none =>
        by_cases hr : key ∈ rest <;> simp [hr, hkw]
    · have hstep :
          dlookup
            (match dlookup kwargs a with
             | some v => setKey acc a (pyNormalize v)
             | none => acc) key = dlookup acc key := by
        cases hkw : dlookup kwargs a with
        | some v => simp [dlookup_setKey, hk]
        | none => rfl
      by_cases hr : key ∈ rest
      · simp only [if_pos hr, if_pos (List.mem_cons.mpr (Or.inr hr))]
        cases hkk : dlookup kwargs key with
        | some v => rfl
        | none => exact hstep
      · have hnotc : key ∉ a :: rest := by
          simp [List.mem_cons, hk, hr]
        simp only [if_neg hr, if_neg hnotc]
        exact hstep

theorem dlookup_captureAttributes (attrNames : List String) (kwargs : Kw)
    (key : String) :
    dlookup (captureAttributes attrNames kwargs) key =
      if key ∈ attrNames then
        match dlookup kwargs key with
        | some v => some (pyNormalize v)
        | none => none
      else none := by
  unfold captureAttributes
  rw [captureAttributes_fold_lookup]
  by_cases hk : key ∈ attrNames
  · simp only [if_pos hk]
    cases hkk : dlookup kwargs key <;> rfl
  · simp [hk, dlookup]

theorem mem_keysToRemoveList (validExecutionTags executionTags : Kw)
    (key : String) :
    key ∈ keysToRemoveList validExecutionTags executionTags ↔
      key ∈ validExecutionTags.map Prod.fst ∨ key = "function_uuid" ∨
        key ∈ executionTags.map Prod.fst := by
  unfold keysToRemoveList
  rw [mem_foldl_appendNew]
  simp only [List.mem_append, List.mem_singleton]
  tauto

theorem dlookup_stripInstrumentationKeys (validExecutionTags executionTags
    kwargs : Kw) (key : String) :
    dlookup (stripInstrumentationKeys validExecutionTags executionTags kwargs)
        key =
      if key ∈ validExecutionTags.map Prod.fst ∨ key = "function_uuid" ∨
          key ∈ executionTags.map Prod.fst
      then none else dlookup kwargs key := by
  unfold stripInstrumentationKeys
  rw [dlookup_foldl_popKey]
  by_cases h : key ∈ keysToRemoveList validExecutionTags executionTags
  · rw [if_pos h, if_pos ((mem_keysToRemoveList _ _ _).mp h)]
  · rw [if_neg h, if_neg (fun hc => h ((mem_keysToRemoveList _ _ _).mpr hc))]

theorem computeValidTags_foldl (functionName : String)
    (allowed : List String) (tags : Kw) :
    ∀ acc : Kw × List LogEntry,
      tags.foldl
        (fun acc p =>
          if p.1 ∈ allowed then (acc.1 ++ [p], acc.2)
          else (acc.1, acc.2 ++ [.warnUndefinedTag functionName p.1]))
        acc =
      (acc.1 ++ tags.filter (fun p => p.1 ∈ allowed),
       acc.2 ++ (tags.filter (fun p => p.1 ∉ allowed)).map
         (fun p => .warnUndefinedTag functionName p.1)) := by
  induction tags with
  | nil => intro acc; simp
  | cons p rest ih =>
    intro acc
    rw [List.foldl_cons]
    by_cases hp : p.1 ∈ allowed
    · rw [if_pos hp, ih]
      simp [List.filter_cons, hp]
    · rw [if_neg hp, ih]
      simp [List.filter_cons, hp]

/-- A business function that returns `None` and leaves the state unchanged. -/
def okFun : PyFun := fun _ _ st => (.ok .vnone, st)

/-- A business function that reports the `trace_id` keyword argument it
receives (or `None` when it receives none). -/
def kwReportFun : PyFun :=
  fun _ kwargs st => (.ok ((dlookup kwargs "trace_id").getD .vnone), st)

/-- A state whose context cell is empty. -/
def stEmpty : PyState := { cell := none, emitted := [] }

/-- A state whose context cell already holds a tracer (a nested call). -/
def stBusy : PyState :=
  { cell := some { trace_id := .vstr "T", settings := defaultSettings }
    emitted := [] }

/-- Fixed environmental inputs for one span. -/
def rtA : SpanRt := { span_id := "s1", timestamp_utc := "ts", duration_ms := 5 }

/-- C1 — Transparency: for every instrumented (vectorize-wrapped) function and
every argument list, the instrumented call produces exactly what the business
function produces: the `Except` outcome of the full pipeline (return value or
raised exception) is precisely the outcome of the business function invoked
inside it, never masked, wrapped, or altered — for any sink behaviour. -/
theorem c1_transparency
    (submit : String → Kw → PyState → Except Exc Unit × PyState)
    (settings : Settings) (rt : SpanRt) (freshId : String)
    (validExecutionTags executionTags : Kw) (funcUuid : Val)
    (functionName : String) (func : PyFun) (args : List Val) (kwargs : Kw)
    (st : PyState) :
    (vectorizedCall submit settings rt freshId validExecutionTags
        executionTags funcUuid functionName func args kwargs st).1 =
      (func args
        (vectorizedBusinessKwargs validExecutionTags executionTags funcUuid
          st.cell kwargs)
        (vectorizedBusinessState settings freshId validExecutionTags funcUuid
          kwargs st)).1 := by
  unfold vectorizedCall outerWrapper traceRootWrapper traceSpanWrapper
    innerWrapper vectorizedBusinessKwargs vectorizedBusinessState
    rootPassedKwargs
  cases hc : st.cell with
  | some tracer => simp [hc]
  | none => simp [hc]

/-- C2 — Root-scope lifecycle invariant: if the scoped context cell already
holds a trace context, a `trace_root`-wrapped invocation is a pure
pass-through (no new context, cell untouched by the wrapper); if the cell is
empty, the wrapped function is invoked exactly once with the one newly
created trace context stored, and the cell is restored to its prior (empty)
state afterwards on both the return and the raise path. -/
theorem c2_root_lifecycle (settings : Settings) (freshId : String)
    (func : PyFun) (args : List Val) (kwargs : Kw) (st : PyState) :
    (∀ t, st.cell = some t →
        traceRootWrapper settings freshId func args kwargs st =
          func args kwargs st) ∧
      (st.cell = none →
        (traceRootWrapper settings freshId func args kwargs st).2.cell =
            st.cell ∧
          traceRootWrapper settings freshId func args kwargs st =
            ((func args (popKey kwargs "trace_id")
                { st with
                  cell := some (newTraceCollector settings freshId kwargs) }).1,
             { cell := st.cell
               emitted := (func args (popKey kwargs "trace_id")
                 { st with
                   cell := some (newTraceCollector settings freshId kwargs) }).2.emitted })) := by
  constructor
  · intro t ht
    unfold traceRootWrapper
    rw [ht]
  · intro h
    unfold traceRootWrapper
    rw [h]
    exact ⟨rfl, rfl⟩

/-- Witness for C2: an occupied cell gives a pass-through, and an empty cell
is empty again after the call. -/
theorem c2_root_lifecycle_witness :
    traceRootWrapper defaultSettings "fresh" okFun [] [] stBusy =
        okFun [] [] stBusy ∧
      (traceRootWrapper defaultSettings "fresh" okFun []
          [("trace_id", .vstr "X")] stEmpty).2.cell = none := by
  constructor
  · exact (c2_root_lifecycle defaultSettings "fresh" okFun [] [] stBusy).1
      { trace_id := .vstr "T", settings := defaultSettings } rfl
  · exact ((c2_root_lifecycle defaultSettings "fresh" okFun []
      [("trace_id", .vstr "X")] stEmpty).2 rfl).1

/-- C3 — Keyword stripping: the keyword set the business function receives
from an instrumented call has every key of `valid_execution_tags`, the
internal key `'function_uuid'`, and every key of the original
`execution_tags` declaration (valid or not) removed. -/
theorem c3_keyword_stripping (validExecutionTags executionTags : Kw)
    (funcUuid : Val) (cell : Option TraceCollector) (kwargs : Kw)
    (key : String)
    (h : key ∈ validExecutionTags.map Prod.fst ∨ key = "function_uuid" ∨
      key ∈ executionTags.map Prod.fst) :
    dlookup (vectorizedBusinessKwargs validExecutionTags executionTags
        funcUuid cell kwargs) key = none := by
  unfold vectorizedBusinessKwargs
  rw [dlookup_stripInstrumentationKeys, if_pos h]

/-- Witness for C3: a declared (and valid) tag key passed by the caller never
reaches the business function. -/
theorem c3_keyword_stripping_witness :
    dlookup
      (vectorizedBusinessKwargs [("team", .vstr "x")]
        [("team", .vstr "x"), ("bad", .vint 1)] (.vstr "U") none
        [("team", .vstr "y"), ("a", .vint 7)]) "team" = none :=
  c3_keyword_stripping [("team", .vstr "x")]
    [("team", .vstr "x"), ("bad", .vint 1)] (.vstr "U") none
    [("team", .vstr "y"), ("a", .vint 7)] "team" (by simp)

/-- C8 — Sink failures never escape: `add_object` returns normally on every
input (uninitialized manager included, any insert outcome included), and the
span scope's guarded forwarding means the business outcome of a
`trace_span`-wrapped call is independent of what the submit operation does. -/
theorem c8_sink_failures_never_escape (m : BatchManager) (collection : String)
    (properties : Kw) (uuid : Option String)
    (submit : String → Kw → PyState → Except Exc Unit × PyState)
    (attributesToCapture : List String) (rt : SpanRt) (functionName : String)
    (func : PyFun) (args : List Val) (kwargs : Kw) (st : PyState) :
    (addObject m collection properties uuid).1 = .ok () ∧
      (traceSpanWrapper submit attributesToCapture rt functionName func args
          kwargs st).1 = (func args kwargs st).1 := by
  constructor
  · unfold addObject
    split
    · rfl
    · split <;> rfl
  · unfold traceSpanWrapper
    cases st.cell <;> simp

/-- Settings whose loaded custom properties declare the key `'status'` and
whose environment supplies a global value for it (a configuration
`db_config.py` permits: any JSON key plus a matching environment
variable). -/
def settingsStatusGlobal : Settings :=
  { custom_properties := some ["status"]
    global_custom_values := some [("status", .vstr "GLOBAL")]
    COLLECTION_NAME := "VectorWaveFunctions"
    EXECUTION_COLLECTION_NAME := "VectorWaveExecutions" }

/-- A state whose current tracer carries `settingsStatusGlobal`. -/
def stStatusGlobal : PyState :=
  { cell := some { trace_id := .vstr "T", settings := settingsStatusGlobal }
    emitted := [] }

/-- Counterexample to C4: with a global configured value under the key
`'status'`, the emitted span record's `status` field is the global value
`"GLOBAL"`, not the `"SUCCESS"` the span scope computed — the
identity/timing/status fields do NOT win over colliding configured values,
because the code sets them first and then overlays the globals. -/
theorem c4_counterexample :
    ((traceSpanWrapper recordingSubmit [] rtA "f" okFun) [] []
          stStatusGlobal).2.emitted.map (fun p => dlookup p.2 "status") =
        [some (.vstr "GLOBAL")] ∧
      Val.vstr "GLOBAL" ≠ Val.vstr "SUCCESS" := by
  exact ⟨rfl, by decide⟩

/-- C4 amended — Span-record merge precedence as implemented: the record
starts from the identity/timing/status fields (lowest precedence), the
global configured values overlay them (a colliding global value overrides an
identity/timing/status field), and the captured call-time attributes overlay
both (a captured value wins over a colliding global value and over a
colliding identity/timing/status field). -/
theorem c4_amended (traceId : Val) (rt : SpanRt)
    (functionName status : String) (errorMessage : Val) (g captured : Kw)
    (key : String) (hg : (g.map Prod.fst).Nodup)
    (hc : (captured.map Prod.fst).Nodup) :
    dlookup
        (buildSpanRecord (mkSpanFields traceId rt functionName status
          errorMessage) (some g) captured) key =
      match dlookup captured key with
      | some v => some v
      | none =>
        match dlookup g key with
        | some v => some v
        | none =>
          dlookup (mkSpanFields traceId rt functionName status errorMessage)
            key := by
  unfold buildSpanRecord applyGlobalValues
  rw [dlookup_updateMap _ _ _ hc]
  cases hcap : dlookup captured key with
  | some v => rfl
  | none => rw [dlookup_updateMap _ _ _ hg]

/-- Witness for C4 amended: a key captured at call time overrides the same
key's global configured value in the emitted record. -/
theorem c4_amended_witness :
    dlookup
        (buildSpanRecord (mkSpanFields (.vstr "T") rtA "f" "SUCCESS" .vnone)
          (some [("run_id", .vstr "G"), ("env", .vstr "E")])
          [("run_id", .vstr "C")]) "run_id" = some (.vstr "C") := by
  have h := c4_amended (.vstr "T") rtA "f" "SUCCESS" .vnone
    [("run_id", .vstr "G"), ("env", .vstr "E")] [("run_id", .vstr "C")]
    "run_id" (by decide) (by decide)
  rw [h]
  rfl

/-- Counterexample to C5: in a nested instrumented call (the context cell
already holds a tracer), a caller-supplied `trace_id` keyword is NOT
extracted — the business function receives it. `kwReportFun` returns the
`trace_id` keyword it observes, and it observes `"X"`. -/
theorem c5_counterexample :
    (vectorizedCall recordingSubmit defaultSettings rtA "fresh" [] []
        (.vstr "U") "f" kwReportFun [] [("trace_id", .vstr "X")] stBusy).1 =
      .ok (.vstr "X") := rfl

/-- C5 amended — Trace-identifier extraction happens only at the outermost
call: when the context cell is empty, `trace_id` is removed from the
business function's keyword set and the popped caller value (or the fresh
identifier when absent) becomes the new trace context's identifier; when
the call is nested, `trace_id` is not extracted and passes through to the
business function unchanged (assuming `trace_id` is not itself a declared
execution-tag key). -/
theorem c5_amended (validExecutionTags executionTags : Kw) (funcUuid : Val)
    (settings : Settings) (freshId : String) (kwargs : Kw)
    (t : TraceCollector)
    (hv : "trace_id" ∉ validExecutionTags.map Prod.fst)
    (he : "trace_id" ∉ executionTags.map Prod.fst) :
    dlookup (vectorizedBusinessKwargs validExecutionTags executionTags
          funcUuid none kwargs) "trace_id" = none ∧
      (newTraceCollector settings freshId
          (mergedKwargs validExecutionTags funcUuid kwargs)).trace_id =
        (dlookup kwargs "trace_id").getD (.vstr freshId) ∧
      dlookup (vectorizedBusinessKwargs validExecutionTags executionTags
          funcUuid (some t) kwargs) "trace_id" =
        dlookup kwargs "trace_id" := by
  have hvnone : dlookup validExecutionTags "trace_id" = none :=
    dlookup_eq_none_of_not_mem hv
  have hmerged :
      dlookup (mergedKwargs validExecutionTags funcUuid kwargs) "trace_id" =
        dlookup kwargs "trace_id" := by
    unfold mergedKwargs
    rw [dlookup_setKey, if_neg (by decide), dlookup_updateMap_of_none _ _ _ hvnone]
  refine ⟨?_, ?_, ?_⟩
  · unfold vectorizedBusinessKwargs rootPassedKwargs
    rw [dlookup_stripInstrumentationKeys]
    by_cases hmem : "trace_id" ∈ validExecutionTags.map Prod.fst ∨
        "trace_id" = "function_uuid" ∨ "trace_id" ∈ executionTags.map Prod.fst
    · rw [if_pos hmem]
    · rw [if_neg hmem, dlookup_popKey, if_pos rfl]
  · unfold newTraceCollector
    rw [hmerged]
  · unfold vectorizedBusinessKwargs rootPassedKwargs
    rw [dlookup_stripInstrumentationKeys,
      if_neg (by
        rintro (h | h | h)
        · exact hv h
        · exact absurd h (by decide)
        · exact he h),
      hmerged]

/-- Witness for C5 amended: outermost call strips `trace_id` and uses the
caller value as the trace identifier; nested call passes it through. -/
theorem c5_amended_witness :
    dlookup (vectorizedBusinessKwargs [("team", .vstr "x")]
          [("team", .vstr "x")] (.vstr "U") none [("trace_id", .vstr "X")])
        "trace_id" = none ∧
      (newTraceCollector defaultSettings "fresh"
          (mergedKwargs [("team", .vstr "x")] (.vstr "U")
            [("trace_id", .vstr "X")])).trace_id = .vstr "X" ∧
      dlookup (vectorizedBusinessKwargs [("team", .vstr "x")]
          [("team", .vstr "x")] (.vstr "U")
          (some { trace_id := .vstr "T", settings := defaultSettings })
          [("trace_id", .vstr "X")]) "trace_id" = some (.vstr "X") := by
  have h := c5_amended [("team", .vstr "x")] [("team", .vstr "x")]
    (.vstr "U") defaultSettings "fresh" [("trace_id", .vstr "X")]
    { trace_id := .vstr "T", settings := defaultSettings }
    (by decide) (by decide)
  refine ⟨h.1, ?_, ?_⟩
  · rw [h.2.1]
    rfl
  · rw [h.2.2]
    rfl

/-- Counterexample to C6: when the declared valid execution tag is the key
`'function_uuid'` itself (a key a `.weaviate_properties` file may declare),
the value captured for the span's attributes is the internal identifier,
not the declared tag's configured value and not the caller's value. -/
theorem c6_counterexample :
    dlookup
        (vectorizedCapturedAttributes [("function_uuid", .vstr "TAGVAL")]
          (.vstr "UUID5")
          (some { trace_id := .vstr "T", settings := defaultSettings })
          [("function_uuid", .vstr "CALLERVAL")]) "function_uuid" =
        some (.vstr "UUID5") ∧
      Val.vstr "UUID5" ≠ Val.vstr "TAGVAL" ∧
      Val.vstr "UUID5" ≠ Val.vstr "CALLERVAL" :=
  ⟨rfl, by decide, by decide⟩

/-- C6 amended — Tag tie-break, as implemented: when a caller passes a
keyword colliding with a declared valid execution tag whose key is not
`'function_uuid'`, the captured attribute value (when the key is in the
hardcoded capture whitelist; keys outside it are not captured at all) is the
declared tag's configured value after primitive normalization, never the
caller's value; and neither value reaches the business function, since the
key is stripped. For the key `'function_uuid'` the internal identifier
overrides the declared tag, which is why that key is excluded. -/
theorem c6_amended (validExecutionTags executionTags : Kw) (funcUuid : Val)
    (cell : Option TraceCollector) (kwargs : Kw) (key : String)
    (tagValue callerValue : Val) (hkey : key ≠ "function_uuid")
    (hnodup : (validExecutionTags.map Prod.fst).Nodup)
    (htag : dlookup validExecutionTags key = some tagValue)
    (hcaller : dlookup kwargs key = some callerValue) :
    dlookup (vectorizedCapturedAttributes validExecutionTags funcUuid cell
          kwargs) key =
        (if key ∈ vectorizeCaptureList then some (pyNormalize tagValue)
         else none) ∧
      dlookup (vectorizedBusinessKwargs validExecutionTags executionTags
          funcUuid cell kwargs) key = none := by
  have hmerged :
      dlookup (mergedKwargs validExecutionTags funcUuid kwargs) key =
        some tagValue := by
    unfold mergedKwargs
    rw [dlookup_setKey, if_neg hkey, dlookup_updateMap _ _ _ hnodup, htag]
  constructor
  · unfold vectorizedCapturedAttributes
    rw [dlookup_captureAttributes]
    by_cases hin : key ∈ vectorizeCaptureList
    · have hkeytid : key ≠ "trace_id" := by
        simp only [vectorizeCaptureList, List.mem_cons, List.mem_singleton,
          List.not_mem_nil, or_false] at hin
        rcases hin with rfl | rfl | rfl | rfl
        · exact absurd rfl hkey
        · decide
        · decide
        · decide
      have hroot :
          dlookup (rootPassedKwargs cell
            (mergedKwargs validExecutionTags funcUuid kwargs)) key =
            some tagValue := by
        cases cell with
        | some t => exact hmerged
        | none =>
          unfold rootPassedKwargs
          rw [dlookup_popKey, if_neg hkeytid, hmerged]
      rw [if_pos hin, if_pos hin, hroot]
    · rw [if_neg hin, if_neg hin]
  · unfold vectorizedBusinessKwargs
    rw [dlookup_stripInstrumentationKeys,
      if_pos (Or.inl (mem_keys_of_dlookup_eq_some htag))]

/-- Witness for C6 amended: a declared `team` tag beats the caller's value in
the captured attributes and neither reaches the business function. -/
theorem c6_amended_witness :
    dlookup (vectorizedCapturedAttributes [("team", .vstr "x")] (.vstr "U")
          none [("team", .vstr "y")]) "team" = some (.vstr "x") ∧
      dlookup (vectorizedBusinessKwargs [("team", .vstr "x")]
          [("team", .vstr "x")] (.vstr "U") none [("team", .vstr "y")])
        "team" = none := by
  have h := c6_amended [("team", .vstr "x")] [("team", .vstr "x")]
    (.vstr "U") none [("team", .vstr "y")] "team" (.vstr "x") (.vstr "y")
    (by decide) (by decide) rfl rfl
  refine ⟨?_, h.2⟩
  rw [h.1]
  rfl

/-- C7 — Definition-time tag validation: `valid_execution_tags` is exactly
the subset of the declared `execution_tags` whose keys occur in the
configuration's allowed keys; when allowed keys exist, each key outside them
produces one warning naming the function and the offending key; when the
configuration defines no allowed keys at all (no custom-properties mapping,
or an empty one), `valid_execution_tags` is empty and — provided tags were
declared — a single warning lists all declared tag keys. -/
theorem c7_tag_validation (functionName : String) (executionTags : Kw)
    (customProperties : Option (List String)) :
    (computeValidTags functionName executionTags customProperties).1 =
        executionTags.filter (fun p => p.1 ∈ customProperties.getD []) ∧
      (∀ allowed, customProperties = some allowed → allowed ≠ [] →
        (computeValidTags functionName executionTags customProperties).2 =
          (executionTags.filter (fun p => p.1 ∉ allowed)).map
            (fun p => .warnUndefinedTag functionName p.1)) ∧
      ((customProperties = none ∨ customProperties = some []) →
        executionTags ≠ [] →
        computeValidTags functionName executionTags customProperties =
          ([], [.warnNoPropertiesFile functionName
            (executionTags.map Prod.fst)])) := by
  refine ⟨?_, ?_, ?_⟩
  · unfold computeValidTags
    by_cases hE : executionTags.isEmpty
    · rw [if_pos hE]
      rw [List.isEmpty_iff] at hE
      simp [hE]
    · rw [if_neg hE]
      by_cases hcp : (customProperties.getD []).isEmpty
      · rw [if_pos hcp]
        rw [List.isEmpty_iff] at hcp
        simp [hcp]
      · rw [if_neg hcp, computeValidTags_foldl]
        simp
  · intro allowed hsome hne
    subst hsome
    unfold computeValidTags
    by_cases hE : executionTags.isEmpty
    · rw [if_pos hE]
      rw [List.isEmpty_iff] at hE
      simp [hE]
    · rw [if_neg hE]
      have hcp : ¬ ((some allowed : Option (List String)).getD []).isEmpty := by
        simpa [List.isEmpty_iff] using hne
      rw [if_neg hcp, computeValidTags_foldl]
      simp
  · intro hfalsy hne
    unfold computeValidTags
    have hE : ¬ executionTags.isEmpty := by
      simpa [List.isEmpty_iff] using hne
    rw [if_neg hE]
    have hcp : (customProperties.getD []).isEmpty := by
      rcases hfalsy with h | h <;> simp [h]
    rw [if_pos hcp]

/-- Witness for C7: a mixed declaration keeps the allowed tag, warns on the
undefined one, and a configuration without allowed keys drops everything
with a single warning. -/
theorem c7_tag_validation_witness :
    (computeValidTags "f" [("team", .vstr "x"), ("bad", .vint 1)]
          (some ["team"])).1 = [("team", .vstr "x")] ∧
      (computeValidTags "f" [("team", .vstr "x"), ("bad", .vint 1)]
          (some ["team"])).2 = [.warnUndefinedTag "f" "bad"] ∧
      computeValidTags "g" [("priority", .vint 5)] none =
        ([], [.warnNoPropertiesFile "g" ["priority"]]) := by
  refine ⟨?_, ?_, ?_⟩
  · rw [(c7_tag_validation "f" [("team", .vstr "x"), ("bad", .vint 1)]
      (some ["team"])).1]
    rfl
  · rw [(c7_tag_validation "f" [("team", .vstr "x"), ("bad", .vint 1)]
      (some ["team"])).2.1 ["team"] rfl (by decide)]
    rfl
  · exact (c7_tag_validation "g" [("priority", .vint 5)] none).2.2
      (Or.inl rfl) (by decide)

/-- Counterexample to C9: when the setup of a `vectorize`-wrapped definition
fails, nothing is surfaced to the caller — the exception is swallowed
(logged) and the definition still succeeds, returning the wrapper. -/
theorem c9_counterexample :
    (vectorizeSetup (some { name := "OSError", msg := "could not get source" })
          "process" [] none).raisedToCaller = none ∧
      (vectorizeSetup (some { name := "OSError", msg := "could not get source" })
          "process" [] none).wrapperReturned = true :=
  ⟨rfl, rfl⟩

/-- C9 amended — Configuration errors at definition time are caught, not
surfaced: a failure during setup of a `vectorize`-wrapped definition is
logged, the definition's setup still completes (the wrapper is returned,
with an empty valid-tag set), nothing is raised to the caller, and so the
host process does not crash. -/
theorem c9_amended (e : Exc) (functionName : String) (executionTags : Kw)
    (customProperties : Option (List String)) :
    (vectorizeSetup (some e) functionName executionTags
          customProperties).raisedToCaller = none ∧
      (vectorizeSetup (some e) functionName executionTags
          customProperties).wrapperReturned = true ∧
      (vectorizeSetup (some e) functionName executionTags
          customProperties).valid_execution_tags = [] ∧
      LogEntry.errorSetup functionName e ∈
        (vectorizeSetup (some e) functionName executionTags
          customProperties).logs := by
  refine ⟨rfl, rfl, rfl, ?_⟩
  simp [vectorizeSetup]

/-- C10 — Fixed capture whitelist: the captured attributes of a span emitted
by the `vectorize` pipeline only ever contain the hardcoded keys
`function_uuid`, `team`, `priority`, `run_id`; any other key — even a
declared, allowed and injected execution tag — is never captured, so the
emitted record's value at that key is exactly what the span fields overlaid
with the global configured values give, with no captured contribution. -/
theorem c10_capture_whitelist (validExecutionTags : Kw) (funcUuid : Val)
    (cell : Option TraceCollector) (kwargs : Kw) (key : String)
    (spanFields : Kw) (globalValues : Option Kw)
    (hkey : key ∉ vectorizeCaptureList) :
    dlookup (vectorizedCapturedAttributes validExecutionTags funcUuid cell
          kwargs) key = none ∧
      dlookup (buildSpanRecord spanFields globalValues
          (vectorizedCapturedAttributes validExecutionTags funcUuid cell
            kwargs)) key =
        dlookup (applyGlobalValues spanFields globalValues) key := by
  have hcap : dlookup (vectorizedCapturedAttributes validExecutionTags
      funcUuid cell kwargs) key = none := by
    unfold vectorizedCapturedAttributes
    rw [dlookup_captureAttributes, if_neg hkey]
  exact ⟨hcap, by unfold buildSpanRecord; rw [dlookup_updateMap_of_none _ _ _ hcap]⟩

/-- Witness for C10: a declared and allowed tag `env`, injected into the
merged keyword set, is still not captured. -/
theorem c10_capture_whitelist_witness :
    dlookup (vectorizedCapturedAttributes [("env", .vstr "prod")] (.vstr "U")
        none [("env", .vstr "dev")]) "env" = none :=
  (c10_capture_whitelist [("env", .vstr "prod")] (.vstr "U") none
    [("env", .vstr "dev")] "env" [] none (by decide)).1
